import Mathlib

/-!
Shallow embedding of the `votifast` repository (src/cli.py, src/managers.py,
src/api/__init__.py, src/api/models.py) for checking its natural-language
specification.  Each definition is translated from the Python source; the
doc comment of a definition names the source function it embeds.
-/

namespace Votifast

/-! ## Job queue (asyncio.Queue with `shutdown()`, as used by
`Downloader`/`Decryptor` in src/managers.py)

`Downloader.enqueue`/`Decryptor.enqueue` call `Queue.put_nowait`,
`shutdown` calls `Queue.shutdown()`, and the worker loops call
`Queue.get()` and break on `QueueShutDown`.  The queue itself is the
Python 3.13 `asyncio.Queue` with `shutdown(immediate=False)` semantics:
after shutdown, `put_nowait` raises `QueueShutDown`; `get` still returns
pending items and raises `QueueShutDown` only once the queue is empty;
blocked getters are woken.  The spec calls the closed error `QueueClosed`. -/

/-- Error raised by `enqueue` on a shut-down queue (Python: `QueueShutDown`;
the spec's name for it is `QueueClosed`). -/
inductive QueueError where
  | queueClosed
  deriving DecidableEq, Repr

/-- The FIFO job queue: pending items plus the shutdown flag.  Embeds the
state of `asyncio.Queue` relevant to `put_nowait`/`get`/`shutdown`. -/
structure JobQueue (α : Type) where
  items : List α
  closed : Bool
  deriving DecidableEq, Repr

/-- `Downloader.enqueue` / `Decryptor.enqueue` (src/managers.py): `put_nowait`,
which appends to the tail, or raises `QueueShutDown` if the queue was shut
down. -/
def enqueue {α : Type} (q : JobQueue α) (x : α) : Except QueueError (JobQueue α) :=
  if q.closed then .error .queueClosed
  else .ok { q with items := q.items ++ [x] }

/-- What a worker suspended in `Queue.get()` observes. -/
inductive DequeueResult (α : Type) where
  /-- `get()` returned a job; the queue continues with the rest. -/
  | job (x : α) (rest : JobQueue α)
  /-- `get()` raised `QueueShutDown`: the queue is closed and empty. -/
  | closedSignal
  /-- `get()` suspends: the queue is open and empty. -/
  | blocked
  deriving DecidableEq, Repr

/-- `Queue.get()` as awaited by `_downloader_loop`/`_decryptor_loop`
(src/managers.py): returns the head if any item is pending (even after
shutdown), raises `QueueShutDown` if the queue is shut down and empty, and
otherwise suspends the worker. -/
def dequeue {α : Type} (q : JobQueue α) : DequeueResult α :=
  match q.items with
  | x :: xs => .job x { q with items := xs }
  | [] => if q.closed then .closedSignal else .blocked

/-- `Downloader.shutdown` / `Decryptor.shutdown` (src/managers.py):
`Queue.shutdown()`, which marks the queue closed and wakes blocked getters;
pending items are kept. -/
def shutdown {α : Type} (q : JobQueue α) : JobQueue α :=
  { q with closed := true }

/-- Repeatedly `dequeue` until the queue stops yielding jobs: the sequence of
jobs delivered to workers.  The fuel is the number of pending items, which
bounds the number of successful `get()`s. -/
def deliveredAux {α : Type} : Nat → JobQueue α → List α
  | 0, _ => []
  | n + 1, q =>
    match dequeue q with
    | .job x rest => x :: deliveredAux n rest
    | _ => []

/-- All jobs a pool of workers draining the queue receives. -/
def delivered {α : Type} (q : JobQueue α) : List α :=
  deliveredAux q.items.length q

theorem deliveredAux_items {α : Type} (l : List α) (c : Bool) :
    deliveredAux l.length ⟨l, c⟩ = l := by
  induction l with
  | nil => simp [deliveredAux]
  | cons x xs ih => simp [deliveredAux, dequeue, ih]

/-- Every pending item is delivered, in FIFO order. -/
theorem delivered_eq_items {α : Type} (q : JobQueue α) : delivered q = q.items := by
  cases q with
  | mk items closed => simpa [delivered] using deliveredAux_items items closed

/-! ## CDN selection (src/cli.py, `select_best_cdn`) -/

/-- An `httpx.URL`.  Its `netloc` property is the host (with optional port),
never including the scheme; in httpx it is moreover a `bytes` value, so
comparing it with any `str` is always `False`. -/
structure URL where
  scheme : String
  host : String
  path : String
  deriving DecidableEq, Repr

/-- `httpx.URL.netloc`: host[:port] without the scheme (none of the URLs in
play carry an explicit port). -/
def URL.netloc (u : URL) : String := u.host

/-- The tuple of strings `select_best_cdn` tests `cdn.netloc` against
(src/cli.py lines 28-29).  Note both entries include the `https://` scheme. -/
def slowCdnLiterals : List String :=
  ["https://audio-ak.spotifycdn.com", "https://audio-fa.scdn.co"]

/-- One iteration state of `select_best_cdn`'s loop: the `slower_cdn` and
`faster_cdn` variables. -/
structure CdnLoopState where
  slower_cdn : Option URL
  faster_cdn : Option URL
  deriving DecidableEq, Repr

/-- `select_best_cdn` (src/cli.py): iterate over the candidates, assigning
each to `slower_cdn` when its `netloc` is in the literal tuple and to
`faster_cdn` otherwise, then return `faster_cdn or slower_cdn`. -/
def select_best_cdn (cdns : List URL) : Option URL :=
  let final := cdns.foldl
    (fun (st : CdnLoopState) cdn =>
      if cdn.netloc ∈ slowCdnLiterals then { st with slower_cdn := some cdn }
      else { st with faster_cdn := some cdn })
    ⟨none, none⟩
  final.faster_cdn.orElse (fun _ => final.slower_cdn)

/-- The hosts the design intends to treat as slow legacy endpoints (spec §4.5
and the HTTP-support-tier comment in src/api/models.py). -/
def intendedSlowHosts : List String :=
  ["audio-ak.spotifycdn.com", "audio-fa.scdn.co"]

/-! ## Data model (src/api/models.py) -/

/-- `TrackSourceFormat` (src/api/models.py): `FREE = 10`, `PREMIUM = 11`. -/
inductive TrackSourceFormat where
  | FREE
  | PREMIUM
  deriving DecidableEq, Repr

/-- `TrackSource` (src/api/models.py). -/
structure TrackSource where
  file_id : String
  format : TrackSourceFormat
  bitrate : Nat
  cdns : List URL
  deriving DecidableEq, Repr

/-- `Track` (src/api/models.py), restricted to the fields the claims touch:
the `TrackStub` metadata and the source list. -/
structure Track where
  name : String
  artists : List String
  album : String
  sources : List TrackSource
  deriving DecidableEq, Repr

/-- Python exceptions surfaced by the embedded operations. -/
inductive PyErr where
  /-- `ValueError` (e.g. `max()` of an empty iterable). -/
  | valueError
  /-- `TypeError` (e.g. a dataclass `__init__` called with an unexpected
  keyword argument). -/
  | typeError
  /-- An HTTP/network failure propagating out of an awaited request. -/
  | httpError
  deriving DecidableEq, Repr

/-- Python's `max(xs, key=f)` on a non-empty list: scans left to right and
keeps the first element whose key is maximal, replacing the current best only
on a strictly greater key; raises `ValueError` on an empty iterable. -/
def pymaxByBitrate : List TrackSource → Except PyErr TrackSource
  | [] => .error .valueError
  | x :: xs =>
    .ok (xs.foldl (fun best s => if best.bitrate < s.bitrate then s else best) x)

/-- `Track.hq_free_source` (src/api/models.py): `max` over the sources whose
`format` is `FREE`, keyed by `bitrate`. -/
def Track.hq_free_source (t : Track) : Except PyErr TrackSource :=
  pymaxByBitrate (t.sources.filter (fun src => src.format == .FREE))

/-- Modelled from the spec: `Track.hq_source`, which src/cli.py invokes as
`track.hq_source(sp.is_premium)` but which is absent from
src/api/models.py (the class only defines `hq_free_source`).  Per spec §4.5
the orchestrator resolves each item to the single best source; modelled, by
analogy with `hq_free_source`, as the maximal-bitrate source of the
account's tier (`PREMIUM` when the account is premium, else `FREE`). -/
def Track.hq_source (t : Track) (is_premium : Bool) : Except PyErr TrackSource :=
  pymaxByBitrate (t.sources.filter
    (fun src => src.format == (if is_premium then .PREMIUM else .FREE)))

/-! ## Download worker (src/managers.py, `Downloader`) -/

/-- The outcome of streaming `GET job.url`: the response's status code and
either the full chunk sequence or a network error after a prefix of it.
src/managers.py never consults the status code (there is no
`raise_for_status` on the stream), so a non-success status still yields its
body's chunks. -/
inductive Transfer where
  /-- The stream yields these chunks (of the given byte counts) and ends. -/
  | complete (status : Nat) (chunks : List Nat)
  /-- A network error is raised after the given prefix of chunks. -/
  | netError (status : Nat) (prefixChunks : List Nat)
  deriving DecidableEq, Repr

/-- The observable result of one `download_file` call on a job:
whether the coroutine returned normally or let an exception escape, the
value (total bytes) the job's `done` future was fulfilled with — `none`
when the future was never completed, with no error attached either — and
the bytes written to the output file. -/
structure DownloadRun where
  raised : Option PyErr
  doneTotal : Option Nat
  bytesWritten : Nat
  deriving DecidableEq, Repr

/-- `Downloader.download_file` (src/managers.py): stream the chunks to the
output file, accumulating the total, and finally `job.done.set_result(total)`.
No status check is performed and no exception is caught: a network error
mid-stream propagates out with the `done` future untouched. -/
def download_file (t : Transfer) : DownloadRun :=
  match t with
  | .complete _ chunks => ⟨none, some chunks.sum, chunks.sum⟩
  | .netError _ prefixChunks => ⟨some .httpError, none, prefixChunks.sum⟩

/-- The observable result of one iteration of `Downloader._downloader_loop`
on a dequeued job: the `download_file` run, whether `task_done()` was called
on the queue, and whether the loop proceeds to the next iteration (rather
than the worker task dying with the exception). -/
structure WorkerIteration where
  run : DownloadRun
  acknowledged : Bool
  continues : Bool
  deriving DecidableEq, Repr

/-- One iteration of `Downloader._downloader_loop` (src/managers.py) on a
dequeued job: `await download_file(...)` then `task_done()`.  The `await` is
not wrapped in any `try`, so an escaping exception skips `task_done()` and
terminates the worker task. -/
def downloader_loop_iteration (t : Transfer) : WorkerIteration :=
  let run := download_file t
  match run.raised with
  | none => ⟨run, true, true⟩
  | some _ => ⟨run, false, false⟩

/-! ## Decrypt worker (src/managers.py, `Decryptor`) -/

/-- Outcome of `sp.get_widevine_key(job.file_id)`: the key, or an exception
(an HTTP failure anywhere in the key-fetch sequence). -/
inductive KeyFetch where
  | ok (key : String)
  | fetchError
  deriving DecidableEq, Repr

/-- Filesystem state of one media item: whether the interim (encrypted)
artifact and the final (decrypted) artifact exist. -/
structure FsState where
  interimExists : Bool
  finalExists : Bool
  deriving DecidableEq, Repr

/-- Result of one `Decryptor.decrypt_file` call: the filesystem state after
the call and the exception that escaped, if any. -/
structure DecryptRun where
  fs : FsState
  raised : Option PyErr
  deriving DecidableEq, Repr

/-- `Decryptor.decrypt_file` (src/managers.py): fetch the key (an exception
here propagates at once, touching nothing), spawn the decrypt tool, await it,
then `job.encrypted.unlink()`.  The tool's exit code is never inspected (the
source carries a FIXME about staying silent on errors), so the unlink happens
on every run that gets past the key fetch, whatever `toolExit` is. -/
def decrypt_file (kf : KeyFetch) (toolExit : Int) (fs : FsState) : DecryptRun :=
  match kf with
  | .fetchError => ⟨fs, some .httpError⟩
  | .ok _ =>
    let _ := toolExit
    ⟨{ fs with interimExists := false }, none⟩

/-! ## Orchestrator (src/cli.py, `enqueue_track` inside `votifast_async`) -/

/-- `TrackStub.artist_line` (src/api/models.py): one name as is, two joined
with `" & "`, three or more joined with `", "` and the last appended after a
bare `"&"`.  (On an empty author list the source raises `IndexError` at
`artists[-1]`; tracks always carry at least one author, so that case is not
modelled.) -/
def artist_line (artists : List String) : String :=
  match artists with
  | [a] => a
  | [a, b] => a ++ " & " ++ b
  | _ => String.intercalate ", " artists.dropLast ++ "&" ++ (artists.getLast?.getD "")

/-- `DecryptionJob` (src/managers.py): content identifier, interim
(encrypted) path, final (decrypted) path. -/
structure DecryptionJob where
  file_id : String
  encrypted : String
  decrypted : String
  deriving DecidableEq, Repr

/-- A job handed to one of the two queues by `enqueue_track`.  A download
job carries the callback registered on its `done` future
(`add_done_callback(lambda _: decryptor.enqueue(decrypt_job))`), recorded
here as the decrypt job that callback enqueues. -/
inductive EnqueuedJob where
  | download (url : Option URL) (output : String) (onDone : DecryptionJob)
  | decrypt (job : DecryptionJob)
  deriving DecidableEq, Repr

/-- The decrypt job `enqueue_track` builds for a resolved source:
`DecryptionJob(source.file_id, interim_path, final_path)` with
`interim_path = f'{source.file_id}.bin'` and
`final_path = f'{track.artist_line} - {track.name}.m4a'`. -/
def pairedDecryptJob (track : Track) (source : TrackSource) : DecryptionJob :=
  ⟨source.file_id, source.file_id ++ ".bin",
   artist_line track.artists ++ " - " ++ track.name ++ ".m4a"⟩

/-- `enqueue_track` (src/cli.py), after `get_track` has produced `track`:
resolve the best source, derive the interim and final paths, then
- neither path exists: enqueue one download job to the selected CDN with the
  decrypt-enqueue completion callback;
- only the interim path exists: enqueue the decrypt job directly;
- the final path exists: enqueue nothing.
`fs` abstracts the two `Path.exists()` probes on this item's paths. -/
def enqueue_track (track : Track) (is_premium : Bool) (fs : FsState) :
    Except PyErr (List EnqueuedJob) := do
  let source ← track.hq_source is_premium
  let interim_path := source.file_id ++ ".bin"
  let decrypt_job := pairedDecryptJob track source
  if !fs.interimExists && !fs.finalExists then
    pure [.download (select_best_cdn source.cdns) interim_path decrypt_job]
  else if fs.interimExists && !fs.finalExists then
    pure [.decrypt decrypt_job]
  else
    pure []

/-- Observable events of one media item's pipeline, in program order. -/
inductive Event where
  /-- The orchestrator put the item's download job on the download queue. -/
  | downloadEnqueued
  /-- The worker ran `job.done.set_result(total)`. -/
  | doneFulfilled (total : Nat)
  /-- `decryptor.enqueue(decrypt_job)` ran (directly or from the
  completion callback). -/
  | decryptEnqueued (job : DecryptionJob)
  /-- The transfer raised; the worker task died with the `done` future
  never completed. -/
  | workerFailed
  deriving DecidableEq, Repr

/-- The event trace of one item: `enqueue_track`'s jobs, the download
worker's run on the item's transfer, and the completion callback.
`Future.add_done_callback` callbacks are scheduled by the event loop after
the future is fulfilled, so `decryptEnqueued` follows `doneFulfilled`; when
the transfer raises, `download_file` never reaches `set_result`, the future
stays incomplete, and the callback never runs. -/
def itemTrace (track : Track) (is_premium : Bool) (fs : FsState) (t : Transfer) :
    Except PyErr (List Event) := do
  let jobs ← enqueue_track track is_premium fs
  pure (jobs.flatMap (fun j =>
    match j with
    | .download _ _ onDone =>
      Event.downloadEnqueued ::
        (match (downloader_loop_iteration t).run.doneTotal with
         | some total => [Event.doneFulfilled total, Event.decryptEnqueued onDone]
         | none => [Event.workerFailed])
    | .decrypt job => [Event.decryptEnqueued job]))

/-! ## Session manager (src/api/__init__.py) -/

/-- Python's `int()` on a number: truncation toward zero. -/
def pyInt (q : ℚ) : ℤ := if q < 0 then ⌈q⌉ else ⌊q⌋

/-- The credential installed by `_setup_authorization`: the `Authorization`
bearer token, the `Client-Token` header, and `session_auth_expire_time`
(seconds since epoch, `accessTokenExpirationTimestampMs / 1000`). -/
structure Credential where
  accessToken : String
  clientToken : String
  expiry : ℚ
  deriving DecidableEq, Repr

/-- `SpotifyApi._refresh_session_auth` (src/api/__init__.py):
`timestamp_session_expire = int(self.session_auth_expire_time)`;
if `time.time() < timestamp_session_expire` return (keeping the installed
credential), otherwise run `_setup_authorization`, which installs `fresh`.
The boolean records whether the re-authentication sequence ran. -/
def refresh_session_auth (cred : Credential) (now : ℚ) (fresh : Credential) :
    Credential × Bool :=
  if now < ((pyInt cred.expiry : ℤ) : ℚ) then (cred, false) else (fresh, true)

/-- The steps an authenticated `SpotifyApi` operation performs, in program
order. -/
inductive ApiAction where
  | refreshAuth
  | httpRequest (url : String)
  deriving DecidableEq, Repr

/-- `SpotifyApi.get_widevine_key` (src/api/__init__.py): refresh, GET the
seek table, refresh again, POST the license challenge. -/
def get_widevine_key_actions (file_id : String) : List ApiAction :=
  [.refreshAuth,
   .httpRequest ("https://seektables.scdn.co/seektable/" ++ file_id ++ ".json"),
   .refreshAuth,
   .httpRequest "https://gae2-spclient.spotify.com/widevine-license/v1/audio/license"]

/-- `SpotifyApi._get_stream_urls` (src/api/__init__.py). -/
def get_stream_urls_actions (file_id : String) : List ApiAction :=
  [.refreshAuth,
   .httpRequest ("https://gae2-spclient.spotify.com/storage-resolve/v2/files/audio/interactive/10/"
     ++ file_id ++ "?version=10000000&product=9&platform=39&alt=json")]

/-- `SpotifyApi.get_track` (src/api/__init__.py), up to its first request. -/
def get_track_actions (media_id : String) : List ApiAction :=
  [.refreshAuth,
   .httpRequest ("https://gae2-spclient.spotify.com/track-playback/v1/media/spotify:track:"
     ++ media_id)]

/-- `SpotifyApi.get_album` (src/api/__init__.py). -/
def get_album_actions : List ApiAction :=
  [.refreshAuth,
   .httpRequest "https://api-partner.spotify.com/pathfinder/v2/query"]

/-- `SpotifyApi.get_playlist` (src/api/__init__.py). -/
def get_playlist_actions : List ApiAction :=
  [.refreshAuth,
   .httpRequest "https://api-partner.spotify.com/pathfinder/v2/query"]

/-! ### Interleaved `_refresh_session_auth` callers

`_refresh_session_auth` reads `session_auth_expire_time` and branches with
no `await` in between, so the check is one atomic step of the event loop;
`_setup_authorization` awaits several HTTP requests and installs the fresh
credential only at its end, so other tasks run between a caller's check and
its install.  A caller is modelled by a program counter:
0 = about to run the expiry check, 1 = inside `_setup_authorization`,
2 = returned. -/

/-- Shared state of the interleaving model: the installed credential's
expiry, how many complete `_setup_authorization` sequences have run, and
every caller's program counter. -/
structure AuthWorld where
  expiry : ℚ
  setups : ℕ
  pcs : List ℕ
  deriving DecidableEq, Repr

/-- One scheduler step: run caller `i` up to its next suspension point.
At pc 0 it performs the expiry check (`now < int(expiry)` keeps the
credential and returns; otherwise it enters `_setup_authorization`); at
pc 1 its `_setup_authorization` completes, installing a credential with
expiry `fresh` and counting one re-authentication sequence. -/
def authStep (now fresh : ℚ) (w : AuthWorld) (i : ℕ) : AuthWorld :=
  match w.pcs.get? i with
  | some 0 =>
    if now < ((pyInt w.expiry : ℤ) : ℚ) then { w with pcs := w.pcs.set i 2 }
    else { w with pcs := w.pcs.set i 1 }
  | some 1 => { w with expiry := fresh, setups := w.setups + 1, pcs := w.pcs.set i 2 }
  | _ => w

/-- Run a schedule (a list of caller indices) from a world. -/
def authRun (now fresh : ℚ) (w : AuthWorld) (sched : List ℕ) : AuthWorld :=
  sched.foldl (authStep now fresh) w

/-! ## Metadata client (src/api/__init__.py, `get_track` / `get_album`) -/

/-- The field names of the `Album` dataclass (src/api/models.py):
`name, artists, date, covers, items, label, discs`. -/
def Album_dataclass_fields : List String :=
  ["name", "artists", "date", "covers", "items", "label", "discs"]

/-- The keyword arguments `SpotifyApi.get_album` passes to `Album(...)`
(src/api/__init__.py): note `tracks=`, not `items=`. -/
def get_album_kwargs : List String :=
  ["name", "artists", "date", "covers", "tracks", "label", "discs"]

/-- A Python dataclass `__init__` call succeeds exactly when the keyword
arguments are the declared fields (no unexpected keyword, no missing
required field); otherwise it raises `TypeError`. -/
def dataclassCallOk (fields kwargs : List String) : Bool :=
  kwargs.all fields.contains && fields.all kwargs.contains

/-- The `metadata` object of a playback response item
(src/api/__init__.py, `get_track`). -/
structure PlaybackMetadata where
  name : String
  authors : List String
  group_name : String
  deriving DecidableEq, Repr

/-- One `playback_info['media'][...]['item']` with its sources already
resolved through `_get_stream_urls`. -/
structure PlaybackItem where
  metadata : PlaybackMetadata
  sources : List TrackSource
  deriving DecidableEq, Repr

/-- A track-playback response: `media` is `none` when
`playback_info['media']` is falsy. -/
structure PlaybackResponse where
  media : Option PlaybackItem
  deriving DecidableEq, Repr

/-- `SpotifyApi.get_track` (src/api/__init__.py) after the HTTP exchange:
`if not playback_info['media']: return None`, else build the `Track` from
the item's metadata and parsed sources. -/
def get_track (resp : PlaybackResponse) : Option Track :=
  resp.media.map (fun item =>
    { name := item.metadata.name
      artists := item.metadata.authors
      album := item.metadata.group_name
      sources := item.sources })

/-- The parsed `albumUnion` payload `SpotifyApi.get_album` works from,
restricted to the fields the claim touches. -/
structure AlbumResponse where
  name : String
  artistNames : List String
  trackIds : List String
  label : String
  discs : Nat
  deriving DecidableEq, Repr

/-- The `Album` value `get_album` is meant to produce (field names from
src/api/models.py). -/
structure Album where
  name : String
  artists : List String
  items : List String
  label : String
  discs : Nat
  deriving DecidableEq, Repr

/-- `SpotifyApi.get_album` (src/api/__init__.py) after the HTTP exchange:
parse the track listing, then construct `Album(..., tracks=tracks, ...)`.
The dataclass `__init__` validates the keyword names against
`Album_dataclass_fields`; a mismatch raises `TypeError`. -/
def get_album (resp : AlbumResponse) : Except PyErr Album :=
  if dataclassCallOk Album_dataclass_fields get_album_kwargs then
    .ok { name := resp.name
          artists := resp.artistNames
          items := resp.trackIds
          label := resp.label
          discs := resp.discs }
  else
    .error .typeError

/-! ## Shared helper lemmas -/

/-- The combining step of Python's `max(..., key=lambda src: src.bitrate)`. -/
def maxStep (best s : TrackSource) : TrackSource :=
  if best.bitrate < s.bitrate then s else best

theorem pymaxByBitrate_eq_foldl (x : TrackSource) (xs : List TrackSource) :
    pymaxByBitrate (x :: xs) = .ok (xs.foldl maxStep x) := rfl

theorem foldl_maxStep_mem (xs : List TrackSource) (x : TrackSource) :
    xs.foldl maxStep x ∈ x :: xs := by
  induction xs generalizing x with
  | nil => simp
  | cons s xs ih =>
    rw [List.foldl_cons]
    have h := ih (maxStep x s)
    rcases List.mem_cons.mp h with h' | h'
    · rw [h']
      by_cases hb : x.bitrate < s.bitrate <;> simp [maxStep, hb]
    · simp [h']

theorem foldl_maxStep_ge (xs : List TrackSource) (x : TrackSource) :
    x.bitrate ≤ (xs.foldl maxStep x).bitrate
    ∧ ∀ y ∈ xs, y.bitrate ≤ (xs.foldl maxStep x).bitrate := by
  induction xs generalizing x with
  | nil => simp
  | cons s xs ih =>
    rw [List.foldl_cons]
    have hx : x.bitrate ≤ (maxStep x s).bitrate := by
      by_cases hb : x.bitrate < s.bitrate <;> simp [maxStep, hb]
      · exact le_of_lt hb
    have hs : s.bitrate ≤ (maxStep x s).bitrate := by
      by_cases hb : x.bitrate < s.bitrate <;> simp [maxStep, hb]
      · exact le_of_not_lt hb
    obtain ⟨ih1, ih2⟩ := ih (maxStep x s)
    refine ⟨le_trans hx ih1, ?_⟩
    intro y hy
    rcases List.mem_cons.mp hy with h' | h'
    · subst h'
      exact le_trans hs ih1
    · exact ih2 y h'

/-! ## Claim theorems -/

/-- C1: the claim says the interim artifact is removed iff decryption
succeeds, in particular that a nonzero exit of the decrypt tool preserves
it.  `decrypt_file` never inspects the tool's exit status: with the key
fetched and the tool exiting 1 (failure), the interim artifact is removed
anyway and no error escapes; only a key-fetch failure preserves it. -/
theorem decrypt_file_unlinks_on_tool_failure :
    (decrypt_file (.ok "k") 1 ⟨true, false⟩).fs.interimExists = false
    ∧ (decrypt_file (.ok "k") 1 ⟨true, false⟩).raised = none
    ∧ (decrypt_file .fetchError 0 ⟨true, false⟩).fs.interimExists = true := by
  decide

/-- C2: the claim says a failed transfer is attached to the job's
completion signal as a DownloadError, the job is acknowledged and the
worker loop continues.  In `_downloader_loop` the exception escapes
uncaught: the `done` future is never completed (no error attached),
`task_done()` is skipped, and the worker task dies.  A non-success HTTP
status is not even a failure: the 500 response's body is streamed and
reported as success. -/
theorem downloader_loop_failure_behaviour :
    downloader_loop_iteration (.netError 200 [512]) =
      ⟨⟨some .httpError, none, 512⟩, false, false⟩
    ∧ downloader_loop_iteration (.complete 500 [100, 200]) =
      ⟨⟨none, some 300, 300⟩, true, true⟩ := by
  decide

/-- C5: after `shutdown()` — enqueue fails with the closed error, shutdown
is idempotent, a worker suspended in `dequeue` observes closure rather than
blocking, and every job enqueued before the shutdown is still delivered. -/
theorem queue_shutdown_contract {α : Type} (q : JobQueue α) (x : α) :
    enqueue (shutdown q) x = .error .queueClosed
    ∧ shutdown (shutdown q) = shutdown q
    ∧ dequeue (shutdown q) ≠ .blocked
    ∧ delivered (shutdown q) = q.items := by
  refine ⟨?_, ?_, ?_, ?_⟩
  · simp [enqueue, shutdown]
  · simp [shutdown]
  · cases q with
    | mk items closed => cases items <;> simp [dequeue, shutdown]
  · rw [delivered_eq_items]
    rfl

/-- A non-slow candidate CDN (HTTP/2 tier per the comment in
src/api/models.py). -/
def fastCdnExample : URL := ⟨"https", "audio-fa-tls13.spotifycdn.com", "/x"⟩

/-- A slow candidate CDN: its host is in the intended denylist. -/
def slowCdnExample : URL := ⟨"https", "audio-ak.spotifycdn.com", "/x"⟩

/-- C6: the claim says a denylisted endpoint is returned only when every
candidate is denylisted.  `select_best_cdn` compares `cdn.netloc` (the bare
host) against literals that include the `https://` scheme, so the test never
matches: every candidate lands in `faster_cdn` and the last one wins.  With
a non-slow and a slow candidate, the slow endpoint is returned even though a
non-slow one exists. -/
theorem select_best_cdn_returns_denylisted :
    select_best_cdn [fastCdnExample, slowCdnExample] = some slowCdnExample
    ∧ slowCdnExample.netloc ∈ intendedSlowHosts
    ∧ fastCdnExample.netloc ∉ intendedSlowHosts := by
  decide

/-- C9: the claim says `get_album` returns an Album carrying the parsed
track listing.  The `Album` dataclass declares the field `items`, but
`get_album` constructs `Album(..., tracks=..., ...)`, so the dataclass
`__init__` raises `TypeError` on every call and no Album is ever returned;
the `get_track` half behaves as claimed (a parsed Track when the playback
response reports media, `None` otherwise). -/
theorem get_album_raises_type_error :
    (∀ resp : AlbumResponse, get_album resp = .error .typeError)
    ∧ get_track ⟨none⟩ = none
    ∧ (∀ item : PlaybackItem, get_track ⟨some item⟩ = some
        ⟨item.metadata.name, item.metadata.authors, item.metadata.group_name,
         item.sources⟩) := by
  refine ⟨?_, rfl, fun item => rfl⟩
  intro resp
  have hbad : dataclassCallOk Album_dataclass_fields get_album_kwargs = false := by
    decide
  simp [get_album, hbad]

/-- C10: with at least one FREE source, `hq_free_source` is a FREE source of
maximal bitrate among the FREE sources; with none, the `max` of the empty
filter raises `ValueError` (neither a premium source nor a null value). -/
theorem hq_free_source_spec (t : Track) :
    ((∃ s ∈ t.sources, s.format = .FREE) →
      ∃ r, t.hq_free_source = .ok r ∧ r.format = .FREE ∧ r ∈ t.sources
        ∧ ∀ s ∈ t.sources, s.format = .FREE → s.bitrate ≤ r.bitrate)
    ∧ ((∀ s ∈ t.sources, s.format ≠ .FREE) →
      t.hq_free_source = .error .valueError) := by
  constructor
  · rintro ⟨s, hs, hfree⟩
    have hmem : s ∈ t.sources.filter (fun src => src.format == .FREE) :=
      List.mem_filter.mpr ⟨hs, by simp [hfree]⟩
    cases hl : t.sources.filter (fun src => src.format == .FREE) with
    | nil =>
      rw [hl] at hmem
      cases hmem
    | cons x xs =>
      have hrmem : xs.foldl maxStep x ∈ t.sources.filter (fun src => src.format == .FREE) := by
        rw [hl]
        exact foldl_maxStep_mem xs x
      refine ⟨xs.foldl maxStep x, ?_, ?_, ?_, ?_⟩
      · rw [Track.hq_free_source, hl, pymaxByBitrate_eq_foldl]
      · have := (List.mem_filter.mp hrmem).2
        simpa using this
      · exact (List.mem_filter.mp hrmem).1
      · intro s' hs' hfree'
        have hmem' : s' ∈ t.sources.filter (fun src => src.format == .FREE) :=
          List.mem_filter.mpr ⟨hs', by simp [hfree']⟩
        rw [hl] at hmem'
        obtain ⟨h1, h2⟩ := foldl_maxStep_ge xs x
        rcases List.mem_cons.mp hmem' with h' | h'
        · subst h'
          exact h1
        · exact h2 s' h'
  · intro h
    have hnil : t.sources.filter (fun src => src.format == .FREE) = [] := by
      rw [List.filter_eq_nil_iff]
      intro a ha
      simpa using h a ha
    rw [Track.hq_free_source, hnil]
    rfl

/-- A FREE source used to instantiate the resume-policy and source-selection
theorems. -/
def sampleSource : TrackSource :=
  ⟨"fid", .FREE, 128000, [fastCdnExample]⟩

/-- A premium source of lower bitrate than `sampleSource`. -/
def samplePremiumSource : TrackSource :=
  ⟨"fidp", .PREMIUM, 96000, [slowCdnExample]⟩

/-- A concrete track with one FREE and one PREMIUM source. -/
def sampleTrack : Track :=
  ⟨"Song", ["Artist"], "Album", [samplePremiumSource, sampleSource]⟩

/-- C10 witness: the spec theorem applied to `sampleTrack`. -/
theorem hq_free_source_spec_witness :
    ∃ r, sampleTrack.hq_free_source = .ok r ∧ r.format = .FREE
      ∧ r ∈ sampleTrack.sources
      ∧ ∀ s ∈ sampleTrack.sources, s.format = .FREE → s.bitrate ≤ r.bitrate :=
  (hq_free_source_spec sampleTrack).1 ⟨sampleSource, by decide, rfl⟩

/-- C4: with the source resolved, the orchestrator's per-item policy is —
no artifact: exactly one download job (to the selected CDN, writing the
interim path) whose completion callback enqueues the paired decrypt job;
interim only: exactly one decrypt job and no download job; final present
(with or without the interim): no job at all, so a second run with the
final artifact present enqueues nothing again. -/
theorem enqueue_track_resume_policy (track : Track) (p : Bool) (source : TrackSource)
    (h : track.hq_source p = .ok source) :
    enqueue_track track p ⟨false, false⟩ =
      .ok [.download (select_best_cdn source.cdns) (source.file_id ++ ".bin")
            (pairedDecryptJob track source)]
    ∧ enqueue_track track p ⟨true, false⟩ = .ok [.decrypt (pairedDecryptJob track source)]
    ∧ enqueue_track track p ⟨false, true⟩ = .ok []
    ∧ enqueue_track track p ⟨true, true⟩ = .ok [] := by
  refine ⟨?_, ?_, ?_, ?_⟩ <;> simp [enqueue_track, h]

/-- C4 witness: the policy theorem applied to `sampleTrack` on a free
account, at the no-artifact and final-present states. -/
theorem enqueue_track_resume_policy_witness :
    enqueue_track sampleTrack false ⟨false, false⟩ =
      .ok [.download (select_best_cdn sampleSource.cdns) (sampleSource.file_id ++ ".bin")
            (pairedDecryptJob sampleTrack sampleSource)]
    ∧ enqueue_track sampleTrack false ⟨true, true⟩ = .ok [] :=
  ⟨(enqueue_track_resume_policy sampleTrack false sampleSource rfl).1,
   (enqueue_track_resume_policy sampleTrack false sampleSource rfl).2.2.2⟩

/-- C3: the claim says a failed download never triggers the decrypt
enqueue, and in the spec's vocabulary a non-success HTTP status is a
transfer failure.  The code never inspects the response status: on a
500-status transfer the error body's 512 bytes are streamed to the interim
path, the completion signal is fulfilled with that byte count, and the
chained callback then enqueues the paired decrypt job — a failed download
does trigger the decrypt enqueue.  (The ordering half of the claim is
respected: the enqueue sits after the fulfilment; and a mid-stream network
error, which leaves the signal unfulfilled, enqueues nothing.) -/
theorem decrypt_enqueued_despite_failed_download :
    itemTrace sampleTrack false ⟨false, false⟩ (.complete 500 [512]) =
      .ok [.downloadEnqueued, .doneFulfilled 512,
           .decryptEnqueued (pairedDecryptJob sampleTrack sampleSource)] := by
  rfl

theorem pyInt_intCast (T : ℤ) : pyInt (T : ℚ) = T := by
  unfold pyInt
  split <;> simp

theorem pyInt_le {q : ℚ} (h : 0 ≤ q) : ((pyInt q : ℤ) : ℚ) ≤ q := by
  unfold pyInt
  rw [if_neg (not_lt.mpr h)]
  exact_mod_cast Int.floor_le q

/-- C7: with the installed credential expiring at integer time T, a call at
T+1 runs the full re-authentication before the request and a call at T-1
runs none; when no re-authentication runs, the composing time is strictly
below the installed expiry, and when one runs, a fresh unexpired credential
is the one whose headers are composed; and every authenticated operation's
first action is the expiry check. -/
theorem session_expiry_checked (T : ℤ) (cred fresh : Credential) (now : ℚ)
    (file_id media_id : String) (hexp : cred.expiry = (T : ℚ)) :
    refresh_session_auth cred ((T : ℚ) + 1) fresh = (fresh, true)
    ∧ refresh_session_auth cred ((T : ℚ) - 1) fresh = (cred, false)
    ∧ (0 ≤ cred.expiry → now < fresh.expiry →
        now < ((refresh_session_auth cred now fresh).1).expiry)
    ∧ (get_widevine_key_actions file_id).head? = some .refreshAuth
    ∧ (get_stream_urls_actions file_id).head? = some .refreshAuth
    ∧ (get_track_actions media_id).head? = some .refreshAuth
    ∧ get_album_actions.head? = some .refreshAuth
    ∧ get_playlist_actions.head? = some .refreshAuth := by
  refine ⟨?_, ?_, ?_, rfl, rfl, rfl, rfl, rfl⟩
  · rw [refresh_session_auth, hexp, pyInt_intCast, if_neg (by linarith)]
  · rw [refresh_session_auth, hexp, pyInt_intCast, if_pos (by linarith)]
  · intro h0 hf
    rw [refresh_session_auth]
    by_cases hlt : now < ((pyInt cred.expiry : ℤ) : ℚ)
    · rw [if_pos hlt]
      exact lt_of_lt_of_le hlt (pyInt_le h0)
    · rw [if_neg hlt]
      exact hf

/-- C7 witness: the check theorem at expiry 100, with calls at 101, 99
and 150. -/
theorem session_expiry_checked_witness :
    refresh_session_auth ⟨"a", "c", ((100 : ℤ) : ℚ)⟩ (((100 : ℤ) : ℚ) + 1)
        ⟨"b", "d", 200⟩ = (⟨"b", "d", 200⟩, true)
    ∧ refresh_session_auth ⟨"a", "c", ((100 : ℤ) : ℚ)⟩ (((100 : ℤ) : ℚ) - 1)
        ⟨"b", "d", 200⟩ = (⟨"a", "c", ((100 : ℤ) : ℚ)⟩, false)
    ∧ (150 : ℚ) <
        ((refresh_session_auth ⟨"a", "c", ((100 : ℤ) : ℚ)⟩ 150 ⟨"b", "d", 200⟩).1).expiry :=
  have h := session_expiry_checked 100 ⟨"a", "c", ((100 : ℤ) : ℚ)⟩ ⟨"b", "d", 200⟩ 150
    "f" "m" rfl
  ⟨h.1, h.2.1, h.2.2.1 (by norm_num) (by norm_num)⟩

/-- C8 counterexample: the claim says concurrent callers racing against one
expired credential execute exactly one re-authentication sequence.  With
two callers both at the expiry check (expiry 100, now 101) and the
interleaving check₀, check₁, setup₀, setup₁ — available because
`_setup_authorization` suspends at its HTTP awaits while
`_refresh_session_auth` takes no lock — two full sequences run. -/
theorem auth_coalescing_counterexample :
    (authRun 101 1000000 ⟨100, 0, [0, 0]⟩ [0, 1, 0, 1]).setups = 2
    ∧ (authRun 101 1000000 ⟨100, 0, [0, 0]⟩ [0, 1, 0, 1]).setups ≠ 1 := by
  decide

/-- C8 amended: the code performs no coalescing — whenever two concurrent
callers both run the expiry check on the same expired credential before
either `_setup_authorization` completes, each executes its own full
re-authentication sequence (two sequences, not one). -/
theorem auth_reauth_not_coalesced (now fresh expiry : ℚ)
    (hexpired : ((pyInt expiry : ℤ) : ℚ) ≤ now) :
    (authRun now fresh ⟨expiry, 0, [0, 0]⟩ [0, 1, 0, 1]).setups = 2 := by
  have h : ¬ now < ((pyInt expiry : ℤ) : ℚ) := not_lt.mpr hexpired
  simp [authRun, authStep, h]

/-- C8 amended witness: the duplicate re-authentication at expiry 100,
now 101. -/
theorem auth_reauth_not_coalesced_witness :
    (authRun 101 500 ⟨100, 0, [0, 0]⟩ [0, 1, 0, 1]).setups = 2 :=
  auth_reauth_not_coalesced 101 500 100 (by norm_num [pyInt])

end Votifast
